import Mathlib

/-!
Shallow embedding of the contact-form intake worker (`src/index.ts` and
`src/utils/{validation,auth,database}.ts`, config from `src/config.ts`).

Conventions of the embedding:
- Optional / possibly-absent form fields and headers are `Option String`;
  JavaScript string truthiness (`undefined` and `""` are falsy) is spelled
  out at each use site, mirroring the exact conditions of the source.
- The platform pieces the worker delegates to are made explicit:
  `String.prototype.trim` is `jsTrim` (ASCII whitespace), `JSON.parse ∘ atob`
  is a `decodeJson` function parameter (it returns `none` where the platform
  would throw, matching the surrounding try/catch), the D1 database is a
  `List DbSubmission` threaded through the handlers, `datetime('now')` and
  `crypto.randomUUID()` are explicit arguments, and the Mailgun HTTP call is
  a `provider` function parameter returning `Except` (an exception) or a
  numeric HTTP status.
- HTML template bodies are abbreviated renderings; the spec places page
  rendering out of scope and no claim depends on the markup.
-/

namespace Intake

/-- ASCII whitespace recognized by the embedding of `String.prototype.trim`. -/
def isSpaceChar (c : Char) : Bool :=
  c = ' ' || c = '\t' || c = '\n' || c = '\r' || c = '\x0b' || c = '\x0c'

/-- Embedding of the platform `String.prototype.trim` (strip whitespace from
both ends). -/
def jsTrim (s : String) : String :=
  (((s.toList.dropWhile isSpaceChar).reverse.dropWhile isSpaceChar).reverse).asString

/-- One entry of `config.admin.statusOptions` (src/config.ts). -/
structure StatusOption where
  value : String
  label : String
deriving DecidableEq, Repr

/-- The slice of `CONFIG` (src/config.ts) consumed by validation, auth and the
admin handlers. -/
structure Config where
  serviceTypes : List String
  nameRequired : String
  serviceTypeRequired : String
  messageRequired : String
  emailInvalid : String
  statusOptions : List StatusOption
  allowedAdminEmails : List String
  enableAdminAuth : Bool
  enableCloudflareAccess : Bool
  enableEmailNotifications : Bool
deriving DecidableEq, Repr

/-- The concrete production `CONFIG` of src/config.ts (fields relevant to the
core pipeline). -/
def CONFIG : Config :=
  { serviceTypes :=
      [ "Auto & Home Systems Repair"
      , "Logistics & Adaptive Operations"
      , "AI Tools & Digital Infrastructure"
      , "Emergency & Crisis Response"
      , "General Inquiry"
      , "Partnership Opportunity" ]
  , nameRequired := "Name is required"
  , serviceTypeRequired := "Please select a service type"
  , messageRequired := "Message is required"
  , emailInvalid := "Please enter a valid email address"
  , statusOptions :=
      [ { value := "new", label := "New" }
      , { value := "in_progress", label := "In Progress" }
      , { value := "resolved", label := "Resolved" }
      , { value := "cancelled", label := "Cancelled" } ]
  , allowedAdminEmails := ["harley@atlasdivisions.com", "admin@atlasdivisions.com"]
  , enableAdminAuth := true
  , enableCloudflareAccess := true
  , enableEmailNotifications := true }

/-- Parsed form fields (`parseFormData` in src/utils/validation.ts): each field
is absent (`none`) or a string. -/
structure FormFields where
  name : Option String
  email : Option String
  phone : Option String
  service_type : Option String
  message : Option String
deriving DecidableEq, Repr

/-- Result of `validateFormSubmission`. -/
structure ValidationResult where
  isValid : Bool
  errors : List String
deriving DecidableEq, Repr

/-- Embedding of `isValidEmail` (src/utils/validation.ts line 89): the regex
`^[^\s@]+@[^\s@]+\.[^\s@]+$` applied to the trimmed string. The regex matches
exactly when the string splits at a unique `@` into a nonempty whitespace-free
local part and a domain that contains a dot strictly inside it. -/
def isValidEmail (email : String) : Bool :=
  let cs := (jsTrim email).toList
  match cs.splitOn '@' with
  | [a, b] =>
      !a.isEmpty && !(a.any isSpaceChar) && !(b.any isSpaceChar) &&
        ((b.drop 1).dropLast.contains '.')
  | _ => false

/-- Embedding of `isValidServiceType` (src/utils/validation.ts line 100). -/
def isValidServiceType (serviceType : String) (cfg : Config) : Bool :=
  cfg.serviceTypes.contains serviceType

/-- The condition `!field || field.trim().length === 0` of the required-field
checks in `validateFormSubmission`: absent, empty, or whitespace-only. -/
def blankField (o : Option String) : Bool :=
  jsTrim (o.getD "") = ""

/-- The condition `field && field.trim().length > 0` guarding the email-format
check: a present, non-empty, non-whitespace-only value. -/
def givenNonBlank (o : Option String) : Bool :=
  jsTrim (o.getD "") ≠ ""

/-- The condition `field && field.length > n` of the length checks (JS string
truthiness: an absent or empty field is never too long). -/
def tooLong (o : Option String) (n : Nat) : Bool :=
  (o.getD "").length > n

/-- Embedding of `validateFormSubmission` (src/utils/validation.ts lines
33-82): the nine checks push their messages independently, in source order,
and the result is valid exactly when the error list stayed empty. -/
def validateFormSubmission (fd : FormFields) (cfg : Config) : ValidationResult :=
  let errors : List String :=
    (if blankField fd.name then [cfg.nameRequired] else []) ++
    (if blankField fd.service_type then [cfg.serviceTypeRequired] else []) ++
    (if blankField fd.message then [cfg.messageRequired] else []) ++
    (if givenNonBlank fd.email && !isValidEmail (fd.email.getD "") then
        [cfg.emailInvalid] else []) ++
    (if fd.service_type.getD "" ≠ "" &&
        !isValidServiceType (fd.service_type.getD "") cfg then
        ["Invalid service type selected"] else []) ++
    (if tooLong fd.name 255 then ["Name must be less than 255 characters"] else []) ++
    (if tooLong fd.email 255 then ["Email must be less than 255 characters"] else []) ++
    (if tooLong fd.phone 50 then ["Phone number must be less than 50 characters"] else []) ++
    (if tooLong fd.message 10000 then ["Message must be less than 10,000 characters"] else [])
  { isValid := errors.isEmpty, errors := errors }

/-- Characters removed by `sanitizeInput`: the ranges `\u0000-\u001F` and
`\u007F-\u009F`. -/
def isCtlChar (c : Char) : Bool :=
  c.toNat ≤ 0x1F || (0x7F ≤ c.toNat && c.toNat ≤ 0x9F)

/-- Embedding of `sanitizeInput` (src/utils/validation.ts line 120): trim,
strip control characters, truncate to 10000 characters. -/
def sanitizeInput (input : String) : String :=
  (((jsTrim input).toList.filter (fun c => !isCtlChar c)).take 10000).asString

/-- The payload produced by `createFormSubmission` (without id/timestamp). -/
structure SubmissionPayload where
  name : String
  email : Option String
  phone : Option String
  service_type : String
  message : String
deriving DecidableEq, Repr

/-- Embedding of `createFormSubmission` (src/utils/validation.ts line 132):
sanitize every field; optional email/phone stay absent when falsy. -/
def createFormSubmission (fd : FormFields) : SubmissionPayload :=
  { name := sanitizeInput (fd.name.getD "")
  , email := match fd.email with
      | some s => if s = "" then none else some (sanitizeInput s)
      | none => none
  , phone := match fd.phone with
      | some s => if s = "" then none else some (sanitizeInput s)
      | none => none
  , service_type := sanitizeInput (fd.service_type.getD "")
  , message := sanitizeInput (fd.message.getD "") }

/-- One row of the `submissions` table (src/utils/database.ts,
`DatabaseSubmission`). -/
structure DbSubmission where
  id : String
  name : String
  email : Option String
  phone : Option String
  service_type : String
  message : String
  status : String
  created_at : String
  updated_at : Option String
deriving DecidableEq, Repr

/-- A submission as built by `handleSubmit` before persistence
(`FormSubmission` in src/types/index.ts). -/
structure FormSubmission where
  id : String
  name : String
  email : Option String
  phone : Option String
  service_type : String
  message : String
  timestamp : String
deriving DecidableEq, Repr

/-- Embedding of `saveSubmission` (src/utils/database.ts line 22): a single
INSERT with hardcoded status `new` and `created_at = datetime('now')`, the
latter passed explicitly as `dbNow`. -/
def saveSubmission (store : List DbSubmission) (s : FormSubmission)
    (dbNow : String) : List DbSubmission :=
  store ++
    [{ id := s.id, name := s.name, email := s.email, phone := s.phone
     , service_type := s.service_type, message := s.message
     , status := "new", created_at := dbNow, updated_at := none }]

/-- Embedding of `updateSubmissionStatus` (src/utils/database.ts line 57): SQL
`UPDATE submissions SET status = ?, updated_at = datetime('now') WHERE id = ?`.
An UPDATE whose WHERE clause matches no row succeeds and changes nothing; no
error is raised. -/
def updateSubmissionStatus (store : List DbSubmission) (id status dbNow : String) :
    List DbSubmission :=
  store.map fun r =>
    if r.id = id then { r with status := status, updated_at := some dbNow } else r

/-- Embedding of `getSubmissionById` (src/utils/database.ts line 71):
`SELECT * FROM submissions WHERE id = ?` taking the first match. -/
def getSubmissionById (store : List DbSubmission) (id : String) :
    Option DbSubmission :=
  store.find? fun r => r.id = id

/-- Insert one row into a list already sorted by `created_at` descending. -/
def insertByCreatedDesc (r : DbSubmission) : List DbSubmission → List DbSubmission
  | [] => [r]
  | x :: xs =>
      if x.created_at ≤ r.created_at then r :: x :: xs
      else x :: insertByCreatedDesc r xs

/-- Embedding of `getAllSubmissions` (src/utils/database.ts line 41):
`SELECT * FROM submissions ORDER BY created_at DESC`. -/
def getAllSubmissions (store : List DbSubmission) : List DbSubmission :=
  store.foldr insertByCreatedDesc []

/-- The JSON claim object obtained from the payload of the
`Cf-Access-Jwt-Assertion` token (fields read by src/utils/auth.ts). -/
structure AccessClaim where
  email : Option String := none
  name : Option String := none
  sub : Option String := none
  aud : Option (List String) := none
  iss : Option String := none
  iat : Option Int := none
  exp : Option Int := none
deriving DecidableEq, Repr

/-- The extracted identity (`CloudflareAccessUser` in src/types/index.ts). -/
structure AccessUser where
  email : String
  name : Option String
  sub : Option String
  aud : Option (List String)
  iss : Option String
  iat : Option Int
  exp : Option Int
deriving DecidableEq, Repr

/-- Embedding of the platform `String.prototype.split` with a one-character
separator: split at every occurrence, keeping empty pieces. -/
def jsSplitChar (sep : Char) (s : String) : List String :=
  (s.toList.splitOn sep).map List.asString

/-- Embedding of the base64url-to-base64 character substitution
(src/utils/auth.ts line 30). -/
def base64urlToBase64 (s : String) : String :=
  s.map fun c => if c = '-' then '+' else if c = '_' then '/' else c

/-- Embedding of the `padEnd` padding to a multiple of four characters
(src/utils/auth.ts line 31). -/
def padBase64 (s : String) : String :=
  s ++ (List.replicate ((4 - s.length % 4) % 4) '=').asString

/-- The expiration condition of src/utils/auth.ts line 36:
`decodedPayload.exp && decodedPayload.exp < Math.floor(Date.now() / 1000)`.
By JS truthiness an absent `exp` and the value `0` both skip the check, and
the comparison is strict. -/
def expiredClaim (claim : AccessClaim) (now : Int) : Bool :=
  match claim.exp with
  | some e => e != 0 && decide (e < now)
  | none => false

/-- Stage of `extractUserFromAccessToken` after a successful JSON decode
(src/utils/auth.ts lines 36-55): reject an expired claim, then a missing or
empty email (JS truthiness), else return the identity. -/
def extractFromClaim (claim : AccessClaim) (now : Int) : Option AccessUser :=
  if expiredClaim claim now then none
  else
    match claim.email with
    | none => none
    | some em =>
        if em = "" then none
        else some
          { email := em, name := claim.name, sub := claim.sub
          , aud := claim.aud, iss := claim.iss
          , iat := claim.iat, exp := claim.exp }

/-- Stage of `extractUserFromAccessToken` for a well-shaped token: base64url
fixup and padding of the middle part (src/utils/auth.ts lines 28-33), then
the platform decode, `none` standing for a thrown exception caught by the
surrounding try/catch. -/
def extractFromPayload (decodeJson : String → Option AccessClaim) (now : Int)
    (payload : String) : Option AccessUser :=
  match decodeJson (padBase64 (base64urlToBase64 payload)) with
  | none => none
  | some claim => extractFromClaim claim now

/-- Stage of `extractUserFromAccessToken` on the split token: exactly three
dot-separated parts are required (src/utils/auth.ts lines 21-25). -/
def extractFromParts (decodeJson : String → Option AccessClaim) (now : Int) :
    List String → Option AccessUser
  | [_, payload, _] => extractFromPayload decodeJson now payload
  | _ => none

/-- Embedding of `extractUserFromAccessToken` (src/utils/auth.ts lines 13-60).
`decodeJson` stands for the platform composition `JSON.parse ∘ atob`; where
either would throw, it returns `none` (the try/catch around the source body
returns null on any exception). `now` is `Math.floor(Date.now() / 1000)`. -/
def extractUserFromAccessToken (decodeJson : String → Option AccessClaim)
    (now : Int) (hdr : Option String) : Option AccessUser :=
  match hdr with
  | none => none
  | some jwt =>
      if jwt = "" then none
      else extractFromParts decodeJson now (jsSplitChar '.' jwt)

/-- Embedding of `validateAdminAccess` (src/utils/auth.ts lines 68-86). -/
def validateAdminAccess (user : Option AccessUser) (cfg : Config) : Bool :=
  if !cfg.enableAdminAuth then true
  else if user.isNone && cfg.enableCloudflareAccess then false
  else if !cfg.enableCloudflareAccess && user.isSome then
    match user with
    | some u => cfg.allowedAdminEmails.contains u.email
    | none => false
  else user.isSome

/-- An HTTP response as produced by the helpers of src/utils/cors.ts (status,
body, optional Location header). -/
structure HttpResponse where
  status : Nat
  body : String
  location : Option String
deriving DecidableEq, Repr

/-- Embedding of `createHtmlResponse` (src/utils/cors.ts). -/
def createHtmlResponse (html : String) (status : Nat) : HttpResponse :=
  { status := status, body := html, location := none }

/-- Embedding of `createErrorResponse` (src/utils/cors.ts). -/
def createErrorResponse (message : String) (status : Nat) : HttpResponse :=
  { status := status, body := message, location := none }

/-- Embedding of `createRedirectResponse` (src/utils/cors.ts, default 302). -/
def createRedirectResponse (loc : String) : HttpResponse :=
  { status := 302, body := "", location := some loc }

/-- Abbreviated rendering of `getSuccessHTML` (src/templates/success.ts). -/
def getSuccessHTML : String :=
  "Message sent successfully"

/-- Abbreviated rendering of `getErrorHTML` (src/templates/error.ts): the page
carries the joined error list it is given. -/
def getErrorHTML (message : String) : String :=
  "Error: " ++ message

/-- Abbreviated rendering of `getAdminHTML` (src/templates/admin.ts): the page
carries the authenticated email and the listed submissions. -/
def getAdminHTML (subs : List DbSubmission) (user : Option AccessUser) : String :=
  "Admin Panel " ++ (match user with | some u => u.email | none => "") ++
    String.intercalate " " (subs.map fun s => s.name)

/-- The environment bindings consumed by the email utilities
(src/types/index.ts): Mailgun credentials and addresses. An unset binding is
the empty string (falsy, as in the source truthiness checks). -/
structure WorkerEnv where
  mgApiKey : String
  mgDomain : String
  adminEmail : String
  fromEmail : String
deriving DecidableEq, Repr

/-- Embedding of `shouldSendEmail` (src/utils/email.ts): the feature flag and
every required binding must be truthy. -/
def shouldSendEmail (cfg : Config) (env : WorkerEnv) : Bool :=
  cfg.enableEmailNotifications && env.mgApiKey != "" &&
    env.mgDomain != "" && env.adminEmail != ""

/-- Embedding of `sendAdminNotification` (src/utils/email.ts): the Mailgun
HTTP call is the `provider` parameter, returning a thrown exception
(`Except.error`) or an HTTP status code. The source wraps the whole body in
try/catch and only logs: a provider failure is absorbed and the function
always returns. The returned flag records `response.ok` and is ignored by the
caller. -/
def sendAdminNotification (provider : FormSubmission → Except String Nat)
    (s : FormSubmission) : Bool :=
  match provider s with
  | Except.ok code => decide (200 ≤ code) && decide (code < 300)
  | Except.error _ => false

/-- Outcome of `handleSubmit`: the response, the resulting store, and whether
the notification branch ran. -/
structure SubmitResult where
  resp : HttpResponse
  store : List DbSubmission
  emailAttempted : Bool
deriving DecidableEq, Repr

/-- Embedding of `handleSubmit` (src/index.ts lines 84-128). `uid` is
`crypto.randomUUID()`, `ts` is `new Date().toISOString()`, `dbNow` is the SQL
`datetime('now')`. -/
def handleSubmit (provider : FormSubmission → Except String Nat)
    (fd : FormFields) (cfg : Config) (env : WorkerEnv)
    (store : List DbSubmission) (uid ts dbNow : String) : SubmitResult :=
  let validation := validateFormSubmission fd cfg
  if validation.isValid then
    let payload := createFormSubmission fd
    let submission : FormSubmission :=
      { id := uid, name := payload.name, email := payload.email
      , phone := payload.phone, service_type := payload.service_type
      , message := payload.message, timestamp := ts }
    let store2 := saveSubmission store submission dbNow
    if shouldSendEmail cfg env then
      let _sent := sendAdminNotification provider submission
      { resp := createHtmlResponse getSuccessHTML 200
      , store := store2, emailAttempted := true }
    else
      { resp := createHtmlResponse getSuccessHTML 200
      , store := store2, emailAttempted := false }
  else
    { resp := createHtmlResponse
        (getErrorHTML (String.intercalate ", " validation.errors)) 400
    , store := store, emailAttempted := false }

/-- Outcome of `handleAdmin`: the response and whether the submission listing
was queried. -/
structure AdminResult where
  resp : HttpResponse
  storeQueried : Bool
deriving DecidableEq, Repr

/-- Embedding of `handleAdmin` (src/index.ts lines 130-156). -/
def handleAdmin (decodeJson : String → Option AccessClaim) (now : Int)
    (hdr : Option String) (cfg : Config) (store : List DbSubmission) :
    AdminResult :=
  let user := extractUserFromAccessToken decodeJson now hdr
  if !validateAdminAccess user cfg then
    if user.isNone then
      { resp := createErrorResponse "Unauthorized - Admin access required" 401
      , storeQueried := false }
    else
      { resp := createErrorResponse "Forbidden - Email not in admin list" 403
      , storeQueried := false }
  else
    { resp := createHtmlResponse (getAdminHTML (getAllSubmissions store) user) 200
    , storeQueried := true }

/-- Outcome of `handleStatusUpdate`: the response and the resulting store. -/
structure UpdateResult where
  resp : HttpResponse
  store : List DbSubmission
deriving DecidableEq, Repr

/-- Embedding of `handleStatusUpdate` (src/index.ts lines 158-193). The
extracted identity is only logged: the source comments that an absent user is
still allowed to update, so no authentication gate exists on this path. The
`id`/`status` form fields are rejected when absent or empty (JS truthiness of
`!id || !status`). -/
def handleStatusUpdate (decodeJson : String → Option AccessClaim) (now : Int)
    (hdr : Option String) (idField statusField : Option String) (cfg : Config)
    (store : List DbSubmission) (dbNow : String) : UpdateResult :=
  let _user := extractUserFromAccessToken decodeJson now hdr
  if idField.getD "" = "" ∨ statusField.getD "" = "" then
    { resp := createErrorResponse "Missing ID or status" 400, store := store }
  else
    let id := idField.getD ""
    let status := statusField.getD ""
    if !((cfg.statusOptions.map fun o => o.value).contains status) then
      { resp := createErrorResponse "Invalid status value" 400, store := store }
    else
      { resp := createRedirectResponse "/admin"
      , store := updateSubmissionStatus store id status dbNow }

/-- Spec-side description of sanitization for one field: trim whitespace,
strip control characters, truncate to that field's own length ceiling `n`.
The code (`sanitizeInput`) truncates every field at 10000; the two agree on
every field that passed validation, which is the refinement proved below. -/
def specFieldClean (n : Nat) (s : String) : String :=
  (((jsTrim s).toList.filter (fun c => !isCtlChar c)).take n).asString

/-- A concrete stored submission used as input for concrete evaluations. -/
def row1 : DbSubmission :=
  { id := "s1", name := "Jane Doe", email := none, phone := none
  , service_type := "General Inquiry", message := "Hello"
  , status := "new", created_at := "2026-01-01 00:00:00", updated_at := none }

/-- A payload decoder that always fails (any malformed payload). -/
def decodeNone : String → Option AccessClaim := fun _ => none

/-- A payload decoder producing a claim whose expiry is the instant 100. -/
def decodeExpNow : String → Option AccessClaim :=
  fun _ => some { email := some "a@b.c", exp := some 100 }

/-- A payload decoder producing a claim that expired at instant 99. -/
def decodeExpPast : String → Option AccessClaim :=
  fun _ => some { email := some "a@b.c", exp := some 99 }

/-- A payload decoder producing a claim with an email and no expiry field. -/
def decodeNoExp : String → Option AccessClaim :=
  fun _ => some { email := some "carol@example.com" }

/-- A payload decoder producing an identity outside the admin allowlist. -/
def decodeOutsider : String → Option AccessClaim :=
  fun _ => some { email := some "outsider@example.com" }

/-- A payload decoder producing an identity on the admin allowlist. -/
def decodeHarley : String → Option AccessClaim :=
  fun _ => some { email := some "harley@atlasdivisions.com" }

/-- A notification provider whose HTTP call succeeds with 200. -/
def okProvider : FormSubmission → Except String Nat := fun _ => Except.ok 200

/-- A notification provider whose HTTP call throws (provider unreachable). -/
def failProvider : FormSubmission → Except String Nat :=
  fun _ => Except.error "provider unreachable"

/-- An environment with full Mailgun configuration. -/
def envFull : WorkerEnv :=
  { mgApiKey := "key-123", mgDomain := "mg.example.com"
  , adminEmail := "admin@example.com", fromEmail := "noreply@example.com" }

/-- An environment missing the Mailgun API key (notification config absent). -/
def envNoKey : WorkerEnv :=
  { mgApiKey := "", mgDomain := "mg.example.com"
  , adminEmail := "admin@example.com", fromEmail := "noreply@example.com" }

/-- A fully valid submission input. -/
def fdJane : FormFields :=
  { name := some "Jane Doe", email := none, phone := none
  , service_type := some "General Inquiry", message := some "Hello" }

/-- An input whose three required fields are non-blank but whose email is
malformed. -/
def fdBadEmail : FormFields :=
  { name := some "Jane Doe", email := some "not-an-email", phone := none
  , service_type := some "General Inquiry", message := some "Hello" }

/-- An input violating the three required-field rules at once. -/
def fdAllBlank : FormFields :=
  { name := some "", email := some "bad", phone := none
  , service_type := none, message := some "  " }

/-- A valid input exercising trimming and control-character stripping. -/
def fdMessy : FormFields :=
  { name := some "  John\x01 Smith ", email := some " john@example.com "
  , phone := some "555-0100", service_type := some "General Inquiry"
  , message := some "Hi there" }

/-- The production configuration switched to allowlist mode (admin auth on,
Cloudflare Access off). -/
def cfgAllowlist : Config :=
  { CONFIG with enableCloudflareAccess := false }

/-- Trimming never lengthens a string. -/
theorem length_jsTrim_le (s : String) : (jsTrim s).length ≤ s.length := by
  have h1 : (s.toList.dropWhile isSpaceChar).length ≤ s.toList.length :=
    (List.dropWhile_sublist _).length_le
  have h2 : ((s.toList.dropWhile isSpaceChar).reverse.dropWhile isSpaceChar).length
      ≤ (s.toList.dropWhile isSpaceChar).reverse.length :=
    (List.dropWhile_sublist _).length_le
  have h3 : (jsTrim s).length
      = ((s.toList.dropWhile isSpaceChar).reverse.dropWhile isSpaceChar).length := by
    show ((s.toList.dropWhile isSpaceChar).reverse.dropWhile isSpaceChar).reverse.length = _
    exact List.length_reverse _
  have h4 : (s.toList.dropWhile isSpaceChar).reverse.length
      = (s.toList.dropWhile isSpaceChar).length := List.length_reverse _
  have h5 : s.toList.length = s.length := rfl
  omega

/-- The trimmed, control-stripped character list is no longer than the raw
string. -/
theorem length_stripped_le (s : String) :
    ((jsTrim s).toList.filter (fun c => !isCtlChar c)).length ≤ s.length := by
  have h1 : ((jsTrim s).toList.filter (fun c => !isCtlChar c)).length
      ≤ (jsTrim s).toList.length := (List.filter_sublist _).length_le
  have h2 : (jsTrim s).toList.length = (jsTrim s).length := rfl
  have h3 := length_jsTrim_le s
  omega

/-- On any input within the ceiling `n ≤ 10000`, the code's sanitizer agrees
with the spec-side per-field sanitizer. -/
theorem sanitizeInput_eq_specFieldClean (s : String) (n : Nat)
    (h : s.length ≤ n) (hn : n ≤ 10000) :
    sanitizeInput s = specFieldClean n s := by
  have hlen := length_stripped_le s
  unfold sanitizeInput specFieldClean
  rw [List.take_of_length_le (by omega), List.take_of_length_le (by omega)]

/-- An UPDATE whose id matches no stored row leaves the store unchanged. -/
theorem updateSubmissionStatus_not_found (store : List DbSubmission)
    (id s t : String) (h : ∀ r ∈ store, r.id ≠ id) :
    updateSubmissionStatus store id s t = store := by
  induction store with
  | nil => rfl
  | cons x xs ih =>
      have hx := h x (List.mem_cons_self x xs)
      have hxs : ∀ r ∈ xs, r.id ≠ id := fun r hr => h r (List.mem_cons_of_mem _ hr)
      simp only [updateSubmissionStatus, List.map_cons, if_neg hx]
      rw [show xs.map _ = updateSubmissionStatus xs id s t from rfl, ih hxs]

/-- An UPDATE rewrites the row a SELECT by id finds: status is replaced and
`updated_at` refreshed, every other field kept. -/
theorem getSubmissionById_update (store : List DbSubmission) (id s t : String)
    (row : DbSubmission) (h : getSubmissionById store id = some row) :
    getSubmissionById (updateSubmissionStatus store id s t) id =
      some { row with status := s, updated_at := some t } := by
  induction store with
  | nil => simp [getSubmissionById] at h
  | cons x xs ih =>
      by_cases hx : x.id = id
      · have hfind : getSubmissionById (x :: xs) id = some x := by
          simp [getSubmissionById, List.find?_cons_of_pos, hx]
        rw [hfind] at h
        cases h
        simp [getSubmissionById, updateSubmissionStatus, List.map_cons, if_pos hx,
          List.find?_cons_of_pos, hx]
      · have hfind : getSubmissionById (x :: xs) id = getSubmissionById xs id := by
          simp [getSubmissionById, List.find?_cons_of_neg, hx]
        rw [hfind] at h
        have := ih h
        simp only [updateSubmissionStatus, List.map_cons, if_neg hx] at *
        simpa [getSubmissionById, List.find?_cons_of_neg, hx] using this

/-- C9: for an existing submission, `updateStatus(id, currentStatus)` — also
twice in a row — keeps `status` at its current value while refreshing
`updated_at` to the timestamp of each call, and leaves every other field of
the row unchanged. `t1` and `t2` are the successive values of the server
clock `datetime('now')`, so `updated_at` advances with the clock. -/
theorem C9_updateStatus_idempotent (store : List DbSubmission)
    (id t1 t2 : String) (row : DbSubmission)
    (h : getSubmissionById store id = some row) :
    getSubmissionById (updateSubmissionStatus store id row.status t1) id =
      some { row with updated_at := some t1 } ∧
    getSubmissionById
        (updateSubmissionStatus (updateSubmissionStatus store id row.status t1)
          id row.status t2) id =
      some { row with updated_at := some t2 } := by
  have h1 := getSubmissionById_update store id row.status t1 row h
  have h2 := getSubmissionById_update _ id row.status t2 _ h1
  exact ⟨h1, h2⟩

/-- C9 witness: the concrete row keeps status `new` across two no-op updates
while `updated_at` is refreshed each time. -/
theorem C9_updateStatus_idempotent_witness :
    getSubmissionById (updateSubmissionStatus [row1] "s1" "new" "t1") "s1" =
      some { row1 with updated_at := some "t1" } ∧
    getSubmissionById
        (updateSubmissionStatus (updateSubmissionStatus [row1] "s1" "new" "t1")
          "s1" "new" "t2") "s1" =
      some { row1 with updated_at := some "t2" } :=
  C9_updateStatus_idempotent [row1] "s1" "t1" "t2" row1 rfl

/-- C5 counterexample: updating a nonexistent id raises no error. The store is
left unchanged and `POST /admin/update` still answers with the success
redirect (302 to /admin), contradicting the claimed `PersistenceError`. -/
theorem C5_counterexample :
    updateSubmissionStatus [row1] "missing-id" "resolved" "t9" = [row1] ∧
    (handleStatusUpdate decodeNone 0 none (some "missing-id") (some "resolved")
        CONFIG [row1] "t9").resp = createRedirectResponse "/admin" ∧
    (handleStatusUpdate decodeNone 0 none (some "missing-id") (some "resolved")
        CONFIG [row1] "t9").store = [row1] := by
  refine ⟨?_, rfl, ?_⟩ <;> decide

/-- C5 amended: for an id that identifies no existing submission,
`updateStatus` succeeds vacuously — the store is unchanged, no error is
raised, and the handler still responds with the 302 redirect to /admin. -/
theorem C5_amended_noop_success (store : List DbSubmission)
    (id status dbNow : String) (d : String → Option AccessClaim) (now : Int)
    (hdr : Option String) (cfg : Config)
    (hmissing : ∀ r ∈ store, r.id ≠ id)
    (hid : id ≠ "") (hstatus : status ≠ "")
    (hvalid : (cfg.statusOptions.map fun o => o.value).contains status = true) :
    updateSubmissionStatus store id status dbNow = store ∧
    (handleStatusUpdate d now hdr (some id) (some status) cfg store dbNow).resp =
      createRedirectResponse "/admin" ∧
    (handleStatusUpdate d now hdr (some id) (some status) cfg store dbNow).store =
      store := by
  have hupd := updateSubmissionStatus_not_found store id status dbNow hmissing
  have hcond : ¬ ∀ x ∈ cfg.statusOptions, ¬ x.value = status := by simpa using hvalid
  refine ⟨hupd, ?_, ?_⟩ <;>
    simp [handleStatusUpdate, hid, hstatus, hcond, hupd]

/-- C5 amended witness: the no-op update at a concrete store. -/
theorem C5_amended_noop_success_witness :
    updateSubmissionStatus [row1] "missing-id" "resolved" "t9" = [row1] ∧
    (handleStatusUpdate decodeNone 0 none (some "missing-id") (some "resolved")
        cfgAllowlist [row1] "t9").resp = createRedirectResponse "/admin" ∧
    (handleStatusUpdate decodeNone 0 none (some "missing-id") (some "resolved")
        cfgAllowlist [row1] "t9").store = [row1] :=
  C5_amended_noop_success [row1] "missing-id" "resolved" "t9" decodeNone 0 none
    cfgAllowlist (by decide) (by decide) (by decide) (by decide)

/-- C1 counterexample: a `POST /admin/update` with no identity header at all
is not rejected: it mutates the submission row and answers 302. -/
theorem C1_counterexample :
    (handleStatusUpdate decodeNone 0 none (some "s1") (some "resolved")
        CONFIG [row1] "t2").resp.status = 302 ∧
    (handleStatusUpdate decodeNone 0 none (some "s1") (some "resolved")
        CONFIG [row1] "t2").store =
      [{ row1 with status := "resolved", updated_at := some "t2" }] := by
  exact ⟨rfl, by decide⟩

/-- C1 amended: `GET /admin` under a policy requiring identity (admin auth
and Cloudflare Access enabled, as in the production CONFIG) rejects a request
with no extractable identity with 401 before querying the store; but
`POST /admin/update` performs no identity check at all — its outcome and its
store mutation are identical with and without an identity header. -/
theorem C1_amended_auth_gate :
    (∀ (d : String → Option AccessClaim) (now : Int) (hdr : Option String)
        (cfg : Config) (store : List DbSubmission),
      cfg.enableAdminAuth = true → cfg.enableCloudflareAccess = true →
      extractUserFromAccessToken d now hdr = none →
      (handleAdmin d now hdr cfg store).resp.status = 401 ∧
      (handleAdmin d now hdr cfg store).storeQueried = false) ∧
    (∀ (d : String → Option AccessClaim) (now : Int)
        (hdr idField statusField : Option String)
        (cfg : Config) (store : List DbSubmission) (dbNow : String),
      handleStatusUpdate d now hdr idField statusField cfg store dbNow =
        handleStatusUpdate d now none idField statusField cfg store dbNow) := by
  constructor
  · intro d now hdr cfg store hAuth hCf hNone
    constructor <;>
      simp [handleAdmin, validateAdminAccess, createErrorResponse, hAuth, hCf, hNone]
  · intro d now hdr idField statusField cfg store dbNow
    rfl

/-- C1 amended witness: concrete 401 on `GET /admin` without identity, and
concrete header-independence of `POST /admin/update`. -/
theorem C1_amended_auth_gate_witness :
    ((handleAdmin decodeNone 0 none CONFIG [row1]).resp.status = 401 ∧
      (handleAdmin decodeNone 0 none CONFIG [row1]).storeQueried = false) ∧
    handleStatusUpdate decodeNone 0 (some "x.y.z") (some "s1") (some "resolved")
        CONFIG [row1] "t2" =
      handleStatusUpdate decodeNone 0 none (some "s1") (some "resolved")
        CONFIG [row1] "t2" :=
  ⟨C1_amended_auth_gate.1 decodeNone 0 none CONFIG [row1] rfl rfl rfl,
   C1_amended_auth_gate.2 decodeNone 0 (some "x.y.z") (some "s1")
     (some "resolved") CONFIG [row1] "t2"⟩

/-- C2: under the allowlist policy (admin auth enabled, Cloudflare Access
mode disabled), `GET /admin` answers 401 when no identity-assertion header is
present, 403 when an identity is extracted whose email is not in the admin
allowlist, and 200 when the extracted email is listed. -/
theorem C2_allowlist_policy (d : String → Option AccessClaim) (now : Int)
    (hdr : Option String) (cfg : Config) (store : List DbSubmission)
    (hAuth : cfg.enableAdminAuth = true)
    (hCf : cfg.enableCloudflareAccess = false) :
    (hdr = none → (handleAdmin d now hdr cfg store).resp.status = 401) ∧
    (∀ u, extractUserFromAccessToken d now hdr = some u →
      cfg.allowedAdminEmails.contains u.email = false →
      (handleAdmin d now hdr cfg store).resp.status = 403) ∧
    (∀ u, extractUserFromAccessToken d now hdr = some u →
      cfg.allowedAdminEmails.contains u.email = true →
      (handleAdmin d now hdr cfg store).resp.status = 200) := by
  refine ⟨?_, ?_, ?_⟩
  · intro hnone
    subst hnone
    simp [handleAdmin, validateAdminAccess, createErrorResponse,
      extractUserFromAccessToken, hAuth, hCf]
  · intro u hu hmem
    have hout : u.email ∉ cfg.allowedAdminEmails := by simpa using hmem
    simp [handleAdmin, validateAdminAccess, createErrorResponse, hAuth, hCf,
      hu, hout]
  · intro u hu hmem
    have hin : u.email ∈ cfg.allowedAdminEmails := by simpa using hmem
    simp [handleAdmin, validateAdminAccess, createHtmlResponse, hAuth, hCf,
      hu, hin]

/-- C2 witness: the three outcomes at the concrete allowlist configuration —
no header gives 401, an unlisted identity gives 403, a listed one gives 200. -/
theorem C2_allowlist_policy_witness :
    (handleAdmin decodeNone 0 none cfgAllowlist [row1]).resp.status = 401 ∧
    (handleAdmin decodeOutsider 0 (some "x.y.z") cfgAllowlist [row1]).resp.status = 403 ∧
    (handleAdmin decodeHarley 0 (some "x.y.z") cfgAllowlist [row1]).resp.status = 200 :=
  ⟨(C2_allowlist_policy decodeNone 0 none cfgAllowlist [row1] rfl rfl).1 rfl,
   (C2_allowlist_policy decodeOutsider 0 (some "x.y.z") cfgAllowlist [row1] rfl rfl).2.1
     { email := "outsider@example.com", name := none, sub := none, aud := none
     , iss := none, iat := none, exp := none } (by decide) (by decide),
   (C2_allowlist_policy decodeHarley 0 (some "x.y.z") cfgAllowlist [row1] rfl rfl).2.2
     { email := "harley@atlasdivisions.com", name := none, sub := none, aud := none
     , iss := none, iat := none, exp := none } (by decide) (by decide)⟩

/-- C3: validation collects all violated rules together — the result is valid
exactly when the error list is empty, each violated rule contributes its
message to the list regardless of the other rules, and on any validation
failure `POST /submit` answers 400 with the full joined error list and leaves
the store unchanged. -/
theorem C3_errors_collected (fd : FormFields) (cfg : Config)
    (provider : FormSubmission → Except String Nat) (env : WorkerEnv)
    (store : List DbSubmission) (uid ts dbNow : String) :
    ((validateFormSubmission fd cfg).isValid = true ↔
      (validateFormSubmission fd cfg).errors = []) ∧
    (blankField fd.name = true →
      cfg.nameRequired ∈ (validateFormSubmission fd cfg).errors) ∧
    (blankField fd.service_type = true →
      cfg.serviceTypeRequired ∈ (validateFormSubmission fd cfg).errors) ∧
    (blankField fd.message = true →
      cfg.messageRequired ∈ (validateFormSubmission fd cfg).errors) ∧
    ((givenNonBlank fd.email && !isValidEmail (fd.email.getD "")) = true →
      cfg.emailInvalid ∈ (validateFormSubmission fd cfg).errors) ∧
    ((fd.service_type.getD "" ≠ "" &&
        !isValidServiceType (fd.service_type.getD "") cfg) = true →
      "Invalid service type selected" ∈ (validateFormSubmission fd cfg).errors) ∧
    (tooLong fd.name 255 = true →
      "Name must be less than 255 characters" ∈ (validateFormSubmission fd cfg).errors) ∧
    (tooLong fd.email 255 = true →
      "Email must be less than 255 characters" ∈ (validateFormSubmission fd cfg).errors) ∧
    (tooLong fd.phone 50 = true →
      "Phone number must be less than 50 characters" ∈ (validateFormSubmission fd cfg).errors) ∧
    (tooLong fd.message 10000 = true →
      "Message must be less than 10,000 characters" ∈ (validateFormSubmission fd cfg).errors) ∧
    ((validateFormSubmission fd cfg).isValid = false →
      (handleSubmit provider fd cfg env store uid ts dbNow).resp.status = 400 ∧
      (handleSubmit provider fd cfg env store uid ts dbNow).resp.body =
        getErrorHTML (String.intercalate ", " (validateFormSubmission fd cfg).errors) ∧
      (handleSubmit provider fd cfg env store uid ts dbNow).store = store) := by
  refine ⟨?_, ?_, ?_, ?_, ?_, ?_, ?_, ?_, ?_, ?_, ?_⟩
  · simp [validateFormSubmission, List.isEmpty_iff]
  · intro h; simp [validateFormSubmission, h]
  · intro h; simp [validateFormSubmission, h]
  · intro h; simp [validateFormSubmission, h]
  · intro h; simp [validateFormSubmission, h]
  · intro h
    simp only [Bool.and_eq_true, decide_eq_true_eq, Bool.not_eq_true'] at h
    simp [validateFormSubmission, h.1, h.2]
  · intro h; simp [validateFormSubmission, h]
  · intro h; simp [validateFormSubmission, h]
  · intro h; simp [validateFormSubmission, h]
  · intro h; simp [validateFormSubmission, h]
  · intro h
    refine ⟨?_, ?_, ?_⟩ <;>
      simp [handleSubmit, h, createHtmlResponse]

/-- C3 witness: an input violating the three required-field rules at once has
all three messages in the error list and is answered 400 with the store
unchanged. -/
theorem C3_errors_collected_witness :
    "Name is required" ∈ (validateFormSubmission fdAllBlank CONFIG).errors ∧
    "Please select a service type" ∈ (validateFormSubmission fdAllBlank CONFIG).errors ∧
    "Message is required" ∈ (validateFormSubmission fdAllBlank CONFIG).errors ∧
    "Please enter a valid email address" ∈ (validateFormSubmission fdAllBlank CONFIG).errors ∧
    (handleSubmit okProvider fdAllBlank CONFIG envFull [] "i" "t" "d").resp.status = 400 ∧
    (handleSubmit okProvider fdAllBlank CONFIG envFull [] "i" "t" "d").store = [] := by
  have h := C3_errors_collected fdAllBlank CONFIG okProvider envFull [] "i" "t" "d"
  have h400 := h.2.2.2.2.2.2.2.2.2.2 (by decide)
  exact ⟨h.2.1 (by decide), h.2.2.1 (by decide), h.2.2.2.1 (by decide),
    h.2.2.2.2.1 (by decide), h400.1, h400.2.2⟩

/-- C4 counterexample: an input whose required fields are all non-blank but
whose email is malformed is rejected with 400 and persists nothing, so
non-blank name, whitelisted service type and non-blank message alone do not
guarantee the success path. -/
theorem C4_counterexample :
    (handleSubmit okProvider fdBadEmail CONFIG envFull [] "id-1" "ts" "t1").resp.status = 400 ∧
    (handleSubmit okProvider fdBadEmail CONFIG envFull [] "id-1" "ts" "t1").store = [] := by
  constructor <;> decide

/-- C4 amended: for every input that passes the whole validation (non-blank
name, whitelisted service type, non-blank message, and additionally a
well-formed email if one is given and all length ceilings respected),
`POST /submit` answers the success page and appends exactly one row, whose
status is the hardcoded default label `new` — the first configured status
option of the production CONFIG. -/
theorem C4_amended_success_persists (fd : FormFields)
    (provider : FormSubmission → Except String Nat) (env : WorkerEnv)
    (store : List DbSubmission) (uid ts dbNow : String)
    (h : (validateFormSubmission fd CONFIG).isValid = true) :
    (handleSubmit provider fd CONFIG env store uid ts dbNow).resp.status = 200 ∧
    (handleSubmit provider fd CONFIG env store uid ts dbNow).resp.body = getSuccessHTML ∧
    (handleSubmit provider fd CONFIG env store uid ts dbNow).store =
      store ++
        [{ id := uid
         , name := (createFormSubmission fd).name
         , email := (createFormSubmission fd).email
         , phone := (createFormSubmission fd).phone
         , service_type := (createFormSubmission fd).service_type
         , message := (createFormSubmission fd).message
         , status := "new", created_at := dbNow, updated_at := none }] ∧
    (CONFIG.statusOptions.map fun o => o.value).head? = some "new" := by
  by_cases he : shouldSendEmail CONFIG env <;>
    refine ⟨?_, ?_, ?_, rfl⟩ <;>
      simp [handleSubmit, saveSubmission, createHtmlResponse, h, he]

/-- C4 amended witness: the concrete fully valid input appends one `new` row
and is answered 200. -/
theorem C4_amended_success_persists_witness :
    (handleSubmit okProvider fdJane CONFIG envFull [] "id-1" "ts" "t1").resp.status = 200 ∧
    (handleSubmit okProvider fdJane CONFIG envFull [] "id-1" "ts" "t1").resp.body = getSuccessHTML ∧
    (handleSubmit okProvider fdJane CONFIG envFull [] "id-1" "ts" "t1").store =
      [] ++
        [{ id := "id-1"
         , name := (createFormSubmission fdJane).name
         , email := (createFormSubmission fdJane).email
         , phone := (createFormSubmission fdJane).phone
         , service_type := (createFormSubmission fdJane).service_type
         , message := (createFormSubmission fdJane).message
         , status := "new", created_at := "t1", updated_at := none }] ∧
    (CONFIG.statusOptions.map fun o => o.value).head? = some "new" :=
  C4_amended_success_persists fdJane okProvider envFull [] "id-1" "ts" "t1" (by decide)

/-- A token that splits into exactly three parts is not the empty string. -/
theorem ne_empty_of_three_parts (jwt h1 p sig : String)
    (h : jsSplitChar '.' jwt = [h1, p, sig]) : jwt ≠ "" := by
  intro he
  subst he
  have hz : jsSplitChar '.' "" = [""] := rfl
  rw [hz] at h
  simp at h

/-- C6 counterexample: a claim whose expiry equals the current instant (100)
is not treated as expired — extraction returns the identity, refuting the
claimed at-or-before rejection. -/
theorem C6_counterexample :
    extractUserFromAccessToken decodeExpNow 100 (some "h.p.s") =
      some { email := "a@b.c", name := none, sub := none, aud := none
           , iss := none, iat := none, exp := some 100 } := by
  decide

/-- C6 amended: extraction yields no identity when the header is absent, when
the token does not split into exactly three dot-separated parts, when the
payload fails to decode, or when the decoded claim lacks a non-empty email;
an expiry rejects the claim only when it is present, nonzero, and strictly
before the current time — in particular a claim whose expiry equals the
current instant yields an identity when a non-empty email is present. -/
theorem C6_amended_extraction (d : String → Option AccessClaim) (now : Int) :
    (extractUserFromAccessToken d now none = none) ∧
    (∀ jwt, (jsSplitChar '.' jwt).length ≠ 3 →
      extractUserFromAccessToken d now (some jwt) = none) ∧
    (∀ jwt h1 p sig, jsSplitChar '.' jwt = [h1, p, sig] →
      d (padBase64 (base64urlToBase64 p)) = none →
      extractUserFromAccessToken d now (some jwt) = none) ∧
    (∀ jwt h1 p sig claim, jsSplitChar '.' jwt = [h1, p, sig] →
      d (padBase64 (base64urlToBase64 p)) = some claim →
      (claim.email = none ∨ claim.email = some "") →
      extractUserFromAccessToken d now (some jwt) = none) ∧
    (∀ jwt h1 p sig claim e, jsSplitChar '.' jwt = [h1, p, sig] →
      d (padBase64 (base64urlToBase64 p)) = some claim →
      claim.exp = some e → e ≠ 0 → e < now →
      extractUserFromAccessToken d now (some jwt) = none) ∧
    (∀ jwt h1 p sig claim em, jsSplitChar '.' jwt = [h1, p, sig] →
      d (padBase64 (base64urlToBase64 p)) = some claim →
      claim.email = some em → em ≠ "" → claim.exp = some now →
      extractUserFromAccessToken d now (some jwt) =
        some { email := em, name := claim.name, sub := claim.sub
             , aud := claim.aud, iss := claim.iss, iat := claim.iat
             , exp := some now }) := by
  refine ⟨rfl, ?_, ?_, ?_, ?_, ?_⟩
  · intro jwt hlen
    by_cases hjw : jwt = ""
    · subst hjw; rfl
    · simp only [extractUserFromAccessToken, if_neg hjw]
      cases h3 : jsSplitChar '.' jwt with
      | nil => simp [extractFromParts]
      | cons a t =>
          cases t with
          | nil => simp [extractFromParts]
          | cons b t2 =>
              cases t2 with
              | nil => simp [extractFromParts]
              | cons c t3 =>
                  cases t3 with
                  | nil => exact absurd (by rw [h3]; rfl) hlen
                  | cons e t4 => simp [extractFromParts]
  · intro jwt h1 p sig hsplit hdec
    simp [extractUserFromAccessToken, if_neg (ne_empty_of_three_parts _ _ _ _ hsplit),
      hsplit, extractFromParts, extractFromPayload, hdec]
  · intro jwt h1 p sig claim hsplit hdec hem
    rcases hem with hem | hem <;>
      simp [extractUserFromAccessToken, if_neg (ne_empty_of_three_parts _ _ _ _ hsplit),
        hsplit, extractFromParts, extractFromPayload, hdec, extractFromClaim, hem]
  · intro jwt h1 p sig claim e hsplit hdec hexp he0 hlt
    have hexpired : expiredClaim claim now = true := by
      simp [expiredClaim, hexp, he0, hlt]
    simp [extractUserFromAccessToken, if_neg (ne_empty_of_three_parts _ _ _ _ hsplit),
      hsplit, extractFromParts, extractFromPayload, hdec, extractFromClaim, hexpired]
  · intro jwt h1 p sig claim em hsplit hdec hem hem2 hexp
    have hexpired : expiredClaim claim now = false := by
      simp [expiredClaim, hexp]
    simp [extractUserFromAccessToken, if_neg (ne_empty_of_three_parts _ _ _ _ hsplit),
      hsplit, extractFromParts, extractFromPayload, hdec, extractFromClaim,
      hexpired, hem, hem2, hexp]

/-- C6 amended witness: a malformed two-part token and a strictly expired
claim both yield no identity. -/
theorem C6_amended_extraction_witness :
    extractUserFromAccessToken decodeExpPast 100 (some "h.p") = none ∧
    extractUserFromAccessToken decodeExpPast 100 (some "h.p.s") = none :=
  ⟨(C6_amended_extraction decodeExpPast 100).2.1 "h.p" (by decide),
   (C6_amended_extraction decodeExpPast 100).2.2.2.2.1 "h.p.s" "h" "p" "s"
     { email := some "a@b.c", exp := some 99 } 99 (by decide) rfl rfl
     (by decide) (by decide)⟩

/-- C10: a payload decoding to a claim with a non-empty email and no `exp`
field passes extraction — the expiry check is skipped entirely when `exp` is
absent, so such a claim is never treated as expired. -/
theorem C10_no_expiry_field (d : String → Option AccessClaim) (now : Int)
    (jwt h1 payload sig : String) (claim : AccessClaim) (em : String)
    (hsplit : jsSplitChar '.' jwt = [h1, payload, sig])
    (hdec : d (padBase64 (base64urlToBase64 payload)) = some claim)
    (hexp : claim.exp = none)
    (hem : claim.email = some em) (hem2 : em ≠ "") :
    extractUserFromAccessToken d now (some jwt) =
      some { email := em, name := claim.name, sub := claim.sub
           , aud := claim.aud, iss := claim.iss, iat := claim.iat
           , exp := none } := by
  have hexpired : expiredClaim claim now = false := by
    simp [expiredClaim, hexp]
  simp [extractUserFromAccessToken, if_neg (ne_empty_of_three_parts _ _ _ _ hsplit),
    hsplit, extractFromParts, extractFromPayload, hdec, extractFromClaim,
    hexpired, hem, hem2, hexp]

/-- C10 witness: a concrete token whose claim has an email and no expiry
yields that identity at any current time. -/
theorem C10_no_expiry_field_witness :
    extractUserFromAccessToken decodeNoExp 999999 (some "a.b.c") =
      some { email := "carol@example.com", name := none, sub := none
           , aud := none, iss := none, iat := none, exp := none } :=
  C10_no_expiry_field decodeNoExp 999999 "a.b.c" "a" "b" "c"
    { email := some "carol@example.com" } "carol@example.com"
    (by decide) rfl rfl rfl (by decide)

/-- C7: for every input that passes validation, each stored field equals the
raw value trimmed, control-stripped, and truncated at that field's own
ceiling (255 for name and email, 50 for phone, 10000 for service type and
message) — the code truncates every field at 10000, and validation bounds
each raw field by its ceiling, so the two truncations agree. -/
theorem C7_per_field_sanitization (fd : FormFields) (cfg : Config)
    (h : (validateFormSubmission fd cfg).isValid = true) :
    (createFormSubmission fd).name = specFieldClean 255 (fd.name.getD "") ∧
    (createFormSubmission fd).email = (match fd.email with
      | some s => if s = "" then none else some (specFieldClean 255 s)
      | none => none) ∧
    (createFormSubmission fd).phone = (match fd.phone with
      | some s => if s = "" then none else some (specFieldClean 50 s)
      | none => none) ∧
    (createFormSubmission fd).service_type =
      specFieldClean 10000 (fd.service_type.getD "") ∧
    (createFormSubmission fd).message = specFieldClean 10000 (fd.message.getD "") := by
  have herr : (validateFormSubmission fd cfg).errors = [] := by
    simpa [validateFormSubmission, List.isEmpty_iff] using h
  simp only [validateFormSubmission, List.append_eq_nil] at herr
  obtain ⟨⟨⟨⟨⟨⟨⟨⟨-, -⟩, -⟩, -⟩, -⟩, e6⟩, e7⟩, e8⟩, -⟩ := herr
  have hname : ¬ tooLong fd.name 255 = true := by
    intro hc; rw [if_pos hc] at e6; simp at e6
  have hemail : ¬ tooLong fd.email 255 = true := by
    intro hc; rw [if_pos hc] at e7; simp at e7
  have hphone : ¬ tooLong fd.phone 50 = true := by
    intro hc; rw [if_pos hc] at e8; simp at e8
  have hnlen : (fd.name.getD "").length ≤ 255 := by
    simpa [tooLong, Nat.not_lt] using hname
  have helen : (fd.email.getD "").length ≤ 255 := by
    simpa [tooLong, Nat.not_lt] using hemail
  have hplen : (fd.phone.getD "").length ≤ 50 := by
    simpa [tooLong, Nat.not_lt] using hphone
  refine ⟨?_, ?_, ?_, rfl, rfl⟩
  · exact sanitizeInput_eq_specFieldClean _ 255 hnlen (by omega)
  · cases he : fd.email with
    | none => simp [createFormSubmission, he]
    | some s =>
        by_cases hs : s = ""
        · simp [createFormSubmission, he, hs]
        · rw [he] at helen
          simp only [createFormSubmission, he, if_neg hs]
          rw [sanitizeInput_eq_specFieldClean s 255 helen (by omega)]
  · cases hp : fd.phone with
    | none => simp [createFormSubmission, hp]
    | some s =>
        by_cases hs : s = ""
        · simp [createFormSubmission, hp, hs]
        · rw [hp] at hplen
          simp only [createFormSubmission, hp, if_neg hs]
          rw [sanitizeInput_eq_specFieldClean s 50 hplen (by omega)]

/-- C7 witness: a valid input with surrounding whitespace and an embedded
control character is stored trimmed, stripped, and within each ceiling. -/
theorem C7_per_field_sanitization_witness :
    (createFormSubmission fdMessy).name = specFieldClean 255 "  John\x01 Smith " ∧
    (createFormSubmission fdMessy).email = some (specFieldClean 255 " john@example.com ") ∧
    (createFormSubmission fdMessy).phone = some (specFieldClean 50 "555-0100") ∧
    (createFormSubmission fdMessy).service_type = specFieldClean 10000 "General Inquiry" ∧
    (createFormSubmission fdMessy).message = specFieldClean 10000 "Hi there" := by
  have h := C7_per_field_sanitization fdMessy CONFIG (by decide)
  exact ⟨h.1, h.2.1, h.2.2.1, h.2.2.2.1, h.2.2.2.2⟩

/-- C8: the submission outcome is fully independent of the notification
provider — a provider that throws or answers any failure status produces the
same response and store as one that succeeds; when the notification
configuration is incomplete the dispatch branch is skipped without becoming
an error; and a valid submission is answered 200 in every case. -/
theorem C8_notification_best_effort (fd : FormFields) (cfg : Config)
    (env : WorkerEnv) (store : List DbSubmission) (uid ts dbNow : String)
    (p q : FormSubmission → Except String Nat) :
    handleSubmit p fd cfg env store uid ts dbNow =
      handleSubmit q fd cfg env store uid ts dbNow ∧
    (shouldSendEmail cfg env = false →
      (handleSubmit p fd cfg env store uid ts dbNow).emailAttempted = false) ∧
    ((validateFormSubmission fd cfg).isValid = true →
      (handleSubmit p fd cfg env store uid ts dbNow).resp.status = 200) := by
  refine ⟨rfl, ?_, ?_⟩
  · intro hskip
    by_cases hv : (validateFormSubmission fd cfg).isValid <;>
      simp [handleSubmit, hv, hskip]
  · intro hv
    by_cases he : shouldSendEmail cfg env <;>
      simp [handleSubmit, hv, he, createHtmlResponse]

/-- C8 witness: at a concrete valid submission, an unreachable provider and a
succeeding provider give the same result; with the API key unset the dispatch
is skipped and the response is still 200. -/
theorem C8_notification_best_effort_witness :
    handleSubmit failProvider fdJane CONFIG envNoKey [] "i" "t" "d" =
      handleSubmit okProvider fdJane CONFIG envNoKey [] "i" "t" "d" ∧
    (handleSubmit failProvider fdJane CONFIG envNoKey [] "i" "t" "d").emailAttempted = false ∧
    (handleSubmit failProvider fdJane CONFIG envNoKey [] "i" "t" "d").resp.status = 200 := by
  have h := C8_notification_best_effort fdJane CONFIG envNoKey [] "i" "t" "d"
    failProvider okProvider
  exact ⟨h.1, h.2.1 (by decide), h.2.2 (by decide)⟩

end Intake
